import Mathlib

/-!
# Verification of the access-gate / discovery / approval / scheduler core

Shallow embedding of the identity-management and job-scheduling core of the
task-logger bot.  The data model follows `src/db/schema.ts`, the store
operations follow `src/db/queries/user.ts`, the access gate follows the
current `src/bot/middleware.ts` (the version imported by `src/bot/index.ts`,
which auto-allows users), the discovery flow follows the older middleware
file that still contains `triggerUserDiscovery`, and the approval handlers
follow `src/bot/handlers/discovery.ts` and the callback-driven half of
`src/bot/handlers/admin.ts`.
-/

namespace TaskLogger

/-- Approval status of a managed identity, `StatusEnum` in `src/db/schema.ts`:
`pending`, `allowed`, `rejected`. -/
inductive Status where
  | pending
  | allowed
  | rejected
deriving DecidableEq, Repr

/-- A row of the `managed_user` table (`managedUser` in `src/db/schema.ts`):
auto-increment integer primary key `id`, unique `telegramId`, `name`,
optional `username`, `status`, optional `patToken`, and the two
timestamps.  Timestamps are modelled as naturals (milliseconds). -/
structure ManagedUser where
  id : Nat
  telegramId : String
  name : String
  username : Option String
  status : Status
  patToken : Option String
  createdAt : Nat
  updatedAt : Nat
deriving DecidableEq, Repr

/-- The `managed_user` table contents, in row order. -/
abbrev UserStore := List ManagedUser

/-- Insert payload for `createUser` (`NewManagedUser`): the fields the
callers of `createUser` supply; `id`, `createdAt`, `updatedAt` are filled
by the database defaults. -/
structure NewManagedUser where
  telegramId : String
  name : String
  username : Option String
  status : Status
deriving DecidableEq, Repr

/-- Database-level failure of a single-row insert: the unique constraint on
`managed_user.telegram_id` was violated. -/
inductive DbError where
  | uniqueViolation
deriving DecidableEq, Repr

/-- `findUserByTelegramId` in `src/db/queries/user.ts`: select the first row
whose `telegramId` matches. -/
def findUserByTelegramId (s : UserStore) (telegramId : String) : Option ManagedUser :=
  s.find? (fun u => u.telegramId == telegramId)

/-- `findUserById` in `src/db/queries/user.ts`: select the first row whose
primary key matches. -/
def findUserById (s : UserStore) (id : Nat) : Option ManagedUser :=
  s.find? (fun u => u.id == id)

/-- Next value of the auto-increment primary key. -/
def nextUserId (s : UserStore) : Nat :=
  (s.map (fun u => u.id)).foldl max 0 + 1

/-- `createUser` in `src/db/queries/user.ts`: a single-row insert.  The
unique constraint on `telegram_id` makes the insert throw when a row with
the same `telegramId` already exists; otherwise the new row is appended
with the defaulted `id`, `createdAt`, `updatedAt`. -/
def createUser (s : UserStore) (nu : NewManagedUser) (now : Nat) :
    Except DbError (UserStore × ManagedUser) :=
  if s.any (fun u => u.telegramId == nu.telegramId) then
    .error .uniqueViolation
  else
    let row : ManagedUser :=
      { id := nextUserId s, telegramId := nu.telegramId, name := nu.name,
        username := nu.username, status := nu.status, patToken := none,
        createdAt := now, updatedAt := now }
    .ok (s ++ [row], row)

/-- Per-row effect of the `updateUserStatus` write: rows whose primary key
matches get the new status and a refreshed `updatedAt`. -/
def applyStatusUpdate (id : Nat) (status : Status) (now : Nat)
    (u : ManagedUser) : ManagedUser :=
  if u.id == id then { u with status := status, updatedAt := now } else u

/-- `updateUserStatus` in `src/db/queries/user.ts`: set `status` and refresh
`updatedAt` on the row(s) whose primary key matches.  The write is
unconditional: it does not compare the stored status with the target. -/
def updateUserStatus (s : UserStore) (id : Nat) (status : Status) (now : Nat) : UserStore :=
  s.map (applyStatusUpdate id status now)

/-- `updateUserByTelegramId` in `src/db/queries/user.ts`, at the one call
site on the inbound path (`middleware.ts`), where the partial update is
`{ status }`: set `status` and refresh `updatedAt` on the row(s) whose
`telegramId` matches. -/
def updateUserByTelegramId (s : UserStore) (telegramId : String) (status : Status)
    (now : Nat) : UserStore :=
  s.map (fun u =>
    if u.telegramId == telegramId then { u with status := status, updatedAt := now } else u)

/-- `deleteUser` in `src/db/queries/user.ts`: delete the row(s) whose
primary key matches. -/
def deleteUser (s : UserStore) (id : Nat) : UserStore :=
  s.filter (fun u => ¬ (u.id == id))

/-- Result of `getAllUsersGroupedByStatus`: the record literal in
`src/db/queries/user.ts` with exactly the three keys `allowed`, `pending`,
`rejected`. -/
structure GroupedUsers where
  allowed : List ManagedUser
  pending : List ManagedUser
  rejected : List ManagedUser
deriving DecidableEq, Repr

/-- Loop body of `getAllUsersGroupedByStatus`: push the user onto the list
matching its status. -/
def groupedPush (g : GroupedUsers) (u : ManagedUser) : GroupedUsers :=
  match u.status with
  | .allowed => { g with allowed := g.allowed ++ [u] }
  | .pending => { g with pending := g.pending ++ [u] }
  | .rejected => { g with rejected := g.rejected ++ [u] }

/-- `getAllUsersGroupedByStatus` in `src/db/queries/user.ts`, applied to the
rows returned by the select: start from the empty record and push every
user onto the list matching its status. -/
def getAllUsersGroupedByStatus (users : List ManagedUser) : GroupedUsers :=
  users.foldl groupedPush { allowed := [], pending := [], rejected := [] }

/-- Telegram chat type as read from `ctx.chat?.type` at the call sites in
`middleware.ts`. -/
inductive ChatType where
  | privateChat
  | group
  | supergroup
  | channel
deriving DecidableEq, Repr

/-- The slice of the grammY `Context` the access-control middleware reads:
chat type, `ctx.chat?.id`, `ctx.from?.id`, `ctx.from?.first_name`,
`ctx.from?.username`, `ctx.chat?.title`. -/
structure InboundCtx where
  chatType : ChatType
  chatId : Option String
  fromId : Option String
  firstName : Option String
  username : Option String
  chatTitle : Option String
deriving DecidableEq, Repr

/-- Observable outcome of one run of the `accessControl` middleware:
the resulting `managed_user` table, whether `next()` was invoked
(the event was forwarded to downstream handlers), the replies sent to the
originating chat, and whether an error was logged by the catch block. -/
structure GateOutcome where
  store : UserStore
  forwarded : Bool
  replies : List String
  errorLogged : Bool
deriving DecidableEq, Repr

/-- `accessControl` in the current `src/bot/middleware.ts` (the module
imported by `src/bot/index.ts`).  Private chats forward unconditionally.
Group chats auto-create an unknown sender with status `allowed`, promote a
stored non-allowed sender to `allowed`, and then forward; the try/catch
around the store operations logs a failure and still falls through to
`next()`.  `available` models whether the identity store is reachable:
when it is `false` every store operation throws. -/
def accessControl (available : Bool) (s : UserStore) (ctx : InboundCtx)
    (now : Nat) : GateOutcome :=
  if ctx.chatType = .privateChat then
    { store := s, forwarded := true, replies := [], errorLogged := false }
  else if ctx.chatId.isSome ∧ (ctx.chatType = .group ∨ ctx.chatType = .supergroup) then
    let tryResult : UserStore × Bool :=
      match ctx.fromId with
      | none => (s, false)
      | some userId =>
        if available then
          match findUserByTelegramId s userId with
          | none =>
            let userName := ctx.firstName.getD "Unknown"
            match createUser s
                { telegramId := userId, name := userName,
                  username := ctx.username, status := .allowed } now with
            | .ok (s2, _) => (s2, false)
            | .error _ => (s, true)
          | some user =>
            if user.status ≠ .allowed then
              (updateUserByTelegramId s userId .allowed now, false)
            else
              (s, false)
        else
          (s, true)
    { store := tryResult.1, forwarded := true, replies := [], errorLogged := tryResult.2 }
  else
    { store := s, forwarded := true, replies := [], errorLogged := false }

/-- Text of the operator notification composed by `triggerUserDiscovery`
in the older middleware file. -/
def userDiscoveryMessage (userName : String) (username : Option String)
    (userId : String) : String :=
  "🔔 <b>New User Request</b>\n\n" ++
  "👤 <b>User:</b> " ++ userName ++
  (match username with
   | some un => " (@" ++ un ++ ")"
   | none => "") ++ "\n" ++
  "🆔 <b>User ID:</b> <code>" ++ userId ++ "</code>"

/-- State threaded through the discovery flow: the `managed_user` table and
the list of notifications sent to the operator chat so far. -/
structure DiscoveryState where
  store : UserStore
  notifications : List String
deriving DecidableEq, Repr

/-- `triggerUserDiscovery` in the older middleware file (the function the
gate hands a `NeedsDiscovery` event to).  It attempts to create the sender
with status `pending`; the surrounding try/catch turns a failed insert
(in particular the unique-constraint conflict lost to a concurrent
duplicate) into a logged no-op that sends nothing.  On a successful create
it sends exactly one approval notification to the configured operator,
or logs and sends nothing when no operator id is configured. -/
def triggerUserDiscovery (st : DiscoveryState) (userId : String)
    (firstName : Option String) (username : Option String)
    (adminId : Option String) (now : Nat) : DiscoveryState :=
  let userName := firstName.getD "Unknown"
  match createUser st.store
      { telegramId := userId, name := userName, username := username,
        status := .pending } now with
  | .error _ => st
  | .ok (s2, _) =>
    match adminId with
    | none => { st with store := s2 }
    | some _ =>
      { store := s2,
        notifications := st.notifications ++ [userDiscoveryMessage userName username userId] }

/-- A run of `triggerUserDiscovery` for each arrival time in `nows`:
the near-simultaneous case, in which every event misses the
`findUserByTelegramId` lookup before any create lands, so each event
reaches `triggerUserDiscovery` and the store linearizes the creates. -/
def discoverySeq (userId : String) (firstName : Option String)
    (username : Option String) (adminId : Option String) :
    List Nat → DiscoveryState → DiscoveryState
  | [], st => st
  | now :: rest, st =>
    discoverySeq userId firstName username adminId rest
      (triggerUserDiscovery st userId firstName username adminId now)

/-- A row of the `managed_group` table (`managedGroup` in
`src/db/schema.ts`): auto-increment primary key, unique `telegramId`,
`title`, `status`, timestamps. -/
structure ManagedGroup where
  id : Nat
  telegramId : String
  title : String
  status : Status
  createdAt : Nat
  updatedAt : Nat
deriving DecidableEq, Repr

/-- Insert payload for `createGroup` (`NewManagedGroup`): the fields its
callers supply. -/
structure NewManagedGroup where
  telegramId : String
  title : String
  status : Status
deriving DecidableEq, Repr

/-- Next value of the group auto-increment primary key. -/
def nextGroupId (gs : List ManagedGroup) : Nat :=
  (gs.map (fun g => g.id)).foldl max 0 + 1

/-- `createGroup` in the group-queries module: a single-row insert; the
unique constraint on `managed_group.telegram_id` makes it throw when a row
with the same `telegramId` already exists. -/
def createGroup (gs : List ManagedGroup) (ng : NewManagedGroup) (now : Nat) :
    Except DbError (List ManagedGroup × ManagedGroup) :=
  if gs.any (fun g => g.telegramId == ng.telegramId) then
    .error .uniqueViolation
  else
    let row : ManagedGroup :=
      { id := nextGroupId gs, telegramId := ng.telegramId, title := ng.title,
        status := ng.status, createdAt := now, updatedAt := now }
    .ok (gs ++ [row], row)

/-- Text of the operator notification composed by `triggerGroupDiscovery`
in the older middleware file.  A missing sender id renders as the string
`undefined`, as JavaScript template interpolation does. -/
def groupDiscoveryMessage (chatTitle : String) (chatId : String)
    (userName : String) (username : Option String)
    (userId : Option String) : String :=
  "🔔 <b>New Group Request</b>\n\n" ++
  "📍 <b>Group:</b> " ++ chatTitle ++ "\n" ++
  "🆔 <b>Group ID:</b> <code>" ++ chatId ++ "</code>\n" ++
  "👤 <b>User:</b> " ++ userName ++
  (match username with
   | some un => " (@" ++ un ++ ")"
   | none => "") ++ "\n" ++
  "🆔 <b>User ID:</b> <code>" ++
  (match userId with
   | some uid => uid
   | none => "undefined") ++ "</code>"

/-- State threaded through the group-discovery flow: the two tables and the
notifications sent to the operator chat so far. -/
structure GroupDiscoveryState where
  groups : List ManagedGroup
  users : UserStore
  notifications : List String
deriving DecidableEq, Repr

/-- `triggerGroupDiscovery` in the older middleware file.  Inside one
try/catch it creates the group with status `pending`, then (when the event
has a sender) creates the sender with status `pending`, then sends the
approval notification to the configured operator.  Any failed create —
in particular a unique-constraint conflict — jumps to the catch, which
only logs: whatever was created before the throw remains, and nothing
after the throw runs, so no notification is sent. -/
def triggerGroupDiscovery (st : GroupDiscoveryState) (chatId : String)
    (chatTitle : Option String) (userId : Option String)
    (firstName : Option String) (username : Option String)
    (adminId : Option String) (now : Nat) : GroupDiscoveryState :=
  let title := chatTitle.getD "Unknown Group"
  let userName := firstName.getD "Unknown"
  match createGroup st.groups
      { telegramId := chatId, title := title, status := .pending } now with
  | .error _ => st
  | .ok (gs2, _) =>
    match userId with
    | none =>
      match adminId with
      | none => { st with groups := gs2 }
      | some _ =>
        { groups := gs2, users := st.users,
          notifications := st.notifications ++
            [groupDiscoveryMessage title chatId userName username userId] }
    | some uid =>
      match createUser st.users
          { telegramId := uid, name := userName, username := username,
            status := .pending } now with
      | .error _ => { st with groups := gs2 }
      | .ok (us2, _) =>
        match adminId with
        | none => { groups := gs2, users := us2, notifications := st.notifications }
        | some _ =>
          { groups := gs2, users := us2,
            notifications := st.notifications ++
              [groupDiscoveryMessage title chatId userName username userId] }

/-- A run of `triggerGroupDiscovery` for each arrival time in `nows`: the
near-simultaneous case, in which every event misses the
`findGroupByTelegramId` lookup before any create lands, so each event
reaches `triggerGroupDiscovery` and the store linearizes the creates. -/
def groupDiscoverySeq (chatId : String) (chatTitle : Option String)
    (userId : Option String) (firstName : Option String)
    (username : Option String) (adminId : Option String) :
    List Nat → GroupDiscoveryState → GroupDiscoveryState
  | [], st => st
  | now :: rest, st =>
    groupDiscoverySeq chatId chatTitle userId firstName username adminId rest
      (triggerGroupDiscovery st chatId chatTitle userId firstName username adminId now)

/-- Observable outcome of one approval-resolution callback: the resulting
`managed_user` table, the `answerCallbackQuery` text (with its
`show_alert` flag), the in-place edit of the original notification
message, and any plain reply sent to the operator chat. -/
structure ResolveOutcome where
  store : UserStore
  answer : Option (String × Bool)
  edit : Option String
  reply : Option String
deriving DecidableEq, Repr

/-- Edited notification text composed by `handleApproveUser` in
`src/bot/handlers/discovery.ts`. -/
def userApprovedMessage (name : String) (username : Option String)
    (telegramId : String) : String :=
  "✅ <b>User Approved</b>\n\n" ++
  "👤 <b>User:</b> " ++ name ++
  (match username with
   | some un => " (@" ++ un ++ ")"
   | none => "") ++ "\n" ++
  "🆔 <b>User ID:</b> <code>" ++ telegramId ++ "</code>\n\n" ++
  "The user is now allowed to use the bot."

/-- `handleApproveUser` in `src/bot/handlers/discovery.ts`: look the user up
by telegram id; when absent answer with a not-found alert; when present
update the status to `allowed` (refreshing `updatedAt`), edit the original
notification in place, and answer with a success toast. -/
def handleApproveUser (s : UserStore) (telegramId : String) (now : Nat) : ResolveOutcome :=
  match findUserByTelegramId s telegramId with
  | none =>
    { store := s, answer := some ("❌ User not found", true), edit := none, reply := none }
  | some user =>
    { store := updateUserStatus s user.id .allowed now,
      answer := some ("✅ User approved", false),
      edit := some (userApprovedMessage user.name user.username telegramId),
      reply := none }

/-- Edited notification text composed by `handleRejectUser` in
`src/bot/handlers/discovery.ts`. -/
def userRejectedMessage (name : String) (username : Option String)
    (telegramId : String) : String :=
  "❌ <b>User Rejected</b>\n\n" ++
  "👤 <b>User:</b> " ++ name ++
  (match username with
   | some un => " (@" ++ un ++ ")"
   | none => "") ++ "\n" ++
  "🆔 <b>User ID:</b> <code>" ++ telegramId ++ "</code>\n\n" ++
  "The user has been rejected and cannot use the bot."

/-- `handleRejectUser` in `src/bot/handlers/discovery.ts`. -/
def handleRejectUser (s : UserStore) (telegramId : String) (now : Nat) : ResolveOutcome :=
  match findUserByTelegramId s telegramId with
  | none =>
    { store := s, answer := some ("❌ User not found", true), edit := none, reply := none }
  | some user =>
    { store := updateUserStatus s user.id .rejected now,
      answer := some ("❌ User rejected", false),
      edit := some (userRejectedMessage user.name user.username telegramId),
      reply := none }

/-- The two actions the discovery callback pattern
`^(approve_user|reject_user):(.+)$` can carry. -/
inductive DiscoveryAction where
  | approveUser (telegramId : String)
  | rejectUser (telegramId : String)
deriving DecidableEq, Repr

/-- The callback-query handler registered by `setupDiscoveryHandlers` in
`src/bot/handlers/discovery.ts`: a requester other than
`BOT_ADMIN_TELEGRAM_ID` is answered with an Unauthorized alert before the
callback data is acted on; otherwise the action is dispatched. -/
def discoveryCallback (requesterId adminId : String) (action : DiscoveryAction)
    (s : UserStore) (now : Nat) : ResolveOutcome :=
  if requesterId ≠ adminId then
    { store := s, answer := some ("⛔ Unauthorized", true), edit := none, reply := none }
  else
    match action with
    | .approveUser telegramId => handleApproveUser s telegramId now
    | .rejectUser telegramId => handleRejectUser s telegramId now

/-- Notification edit composed by `handleRemoveUser` in the callback-driven
half of `src/bot/handlers/admin.ts`. -/
def userRemovedMessage (name : String) (username : Option String)
    (telegramId : String) : String :=
  let display :=
    match username with
    | some un => name ++ " (@" ++ un ++ ")"
    | none => name
  "🗑️ <b>کاربر حذف شد</b>\n\n" ++
  "👤 <b>کاربر:</b> " ++ display ++ "\n" ++
  "🆔 <b>شناسه:</b> <code>" ++ telegramId ++ "</code>"

/-- `handleRemoveUser` in the callback-driven half of
`src/bot/handlers/admin.ts` (the per-user 🗑️ button): look the user up by
primary key; when absent reply with a not-found error and leave the store
untouched; when present delete the row and edit the message. -/
def handleRemoveUser (s : UserStore) (userId : Nat) : ResolveOutcome :=
  match findUserById s userId with
  | none =>
    { store := s, answer := none, edit := none, reply := some "❌ کاربر یافت نشد." }
  | some user =>
    { store := deleteUser s userId,
      answer := none,
      edit := some (userRemovedMessage user.name user.username user.telegramId),
      reply := none }

/-- `handleApproveUser` in the callback-driven half of
`src/bot/handlers/admin.ts` (by primary key, Persian copy). -/
def handleApproveUserById (s : UserStore) (userId : Nat) (now : Nat) : ResolveOutcome :=
  match findUserById s userId with
  | none =>
    { store := s, answer := none, edit := none, reply := some "❌ کاربر یافت نشد." }
  | some user =>
    let display :=
      match user.username with
      | some un => user.name ++ " (@" ++ un ++ ")"
      | none => user.name
    { store := updateUserStatus s userId .allowed now,
      answer := none,
      edit := some ("✅ <b>کاربر تأیید شد</b>\n\n👤 <b>کاربر:</b> " ++ display ++
        "\n🆔 <b>شناسه:</b> <code>" ++ user.telegramId ++ "</code>"),
      reply := none }

/-- `handleRejectUser` in the callback-driven half of
`src/bot/handlers/admin.ts` (by primary key, Persian copy). -/
def handleRejectUserById (s : UserStore) (userId : Nat) (now : Nat) : ResolveOutcome :=
  match findUserById s userId with
  | none =>
    { store := s, answer := none, edit := none, reply := some "❌ کاربر یافت نشد." }
  | some user =>
    let display :=
      match user.username with
      | some un => user.name ++ " (@" ++ un ++ ")"
      | none => user.name
    { store := updateUserStatus s userId .rejected now,
      answer := none,
      edit := some ("❌ <b>کاربر رد شد</b>\n\n👤 <b>کاربر:</b> " ++ display ++
        "\n🆔 <b>شناسه:</b> <code>" ++ user.telegramId ++ "</code>"),
      reply := none }

/-- The three mutating actions of the `admin_`-prefixed callback handler in
`src/bot/handlers/admin.ts`. -/
inductive AdminAction where
  | approveUser (id : Nat)
  | rejectUser (id : Nat)
  | removeUser (id : Nat)
deriving DecidableEq, Repr

/-- The callback-query handler registered on the `^admin_` pattern in the
callback-driven half of `src/bot/handlers/admin.ts`: a requester other
than `BOT_ADMIN_TELEGRAM_ID` is answered with an Unauthorized alert and
nothing else runs; otherwise the query is acknowledged and the action
dispatched. -/
def adminCallback (requesterId adminId : String) (action : AdminAction)
    (s : UserStore) (now : Nat) : ResolveOutcome :=
  if requesterId ≠ adminId then
    { store := s, answer := some ("⛔ Unauthorized", true), edit := none, reply := none }
  else
    match action with
    | .approveUser id => handleApproveUserById s id now
    | .rejectUser id => handleRejectUserById s id now
    | .removeUser id => handleRemoveUser s id

/-- One inline-keyboard button: visible text and callback data. -/
structure Button where
  text : String
  callback : String
deriving DecidableEq, Repr

/-- `buildUserActionKeyboard` in `src/bot/handlers/admin.ts`: per-user
action buttons.  Approve is pushed unless the status is already
`"allowed"`, Reject unless already `"rejected"`, and Remove always.
The status parameter is a raw string, as in the source. -/
def buildUserActionKeyboard (userId : Nat) (status : String) : List Button :=
  (if status ≠ "allowed" then
    [{ text := "✅ تأیید", callback := "admin_approve_user:" ++ toString userId }]
   else []) ++
  (if status ≠ "rejected" then
    [{ text := "❌ رد", callback := "admin_reject_user:" ++ toString userId }]
   else []) ++
  [{ text := "🗑️ حذف", callback := "admin_remove_user:" ++ toString userId }]

/-- Status of a scheduler job, `JobStatusEnum` in `src/db/schema.ts`. -/
inductive JobStatus where
  | pending
  | completed
  | failed
deriving DecidableEq, Repr

/-- A row of the `job` table (`job` in `src/db/schema.ts`): primary key,
description, optional payload, `dueAt`, optional `executedAt`, status,
`createdAt`. -/
structure Job where
  id : Nat
  description : String
  payload : Option String
  dueAt : Nat
  executedAt : Option Nat
  status : JobStatus
  createdAt : Nat
deriving DecidableEq, Repr

/-- Modelled from the spec: the due-set selection of the scheduler tick
(`runner.ts`, which is not present under `src/`; `src/scheduler/README.md`
documents it).  A tick at time `now` selects the jobs with
`status = pending` and `dueAt ≤ now`. -/
def dueJobs (jobs : List Job) (now : Nat) : List Job :=
  jobs.filter (fun j => j.status == .pending && j.dueAt ≤ now)

/-- Mark the row with the given id `failed` and set its `executedAt`. -/
def markJobFailed (jobs : List Job) (id : Nat) (now : Nat) : List Job :=
  jobs.map (fun j =>
    if j.id == id then { j with status := .failed, executedAt := some now } else j)

/-- Delete the job row with the given id. -/
def deleteJob (jobs : List Job) (id : Nat) : List Job :=
  jobs.filter (fun j => ¬ (j.id == id))

/-- Result of a scheduler tick: the final `job` table and the log of status
writes `(jobId, terminal status, executedAt)` performed during the tick,
in order. -/
structure TickResult where
  store : List Job
  log : List (Nat × JobStatus × Nat)
deriving DecidableEq, Repr

/-- Modelled from the spec: the per-job loop of the tick (`runner.ts` is not
present under `src/`).  For each selected job, the injected executor runs;
on success the job is marked `completed` with `executedAt = now` and its
row is then deleted; on failure it is marked `failed` with
`executedAt = now` and retained; either way the loop continues with the
next selected job. -/
def execSelected (executor : Job → Bool) (now : Nat) :
    List Job → List (Nat × JobStatus × Nat) → List Job → TickResult
  | store, log, [] => { store := store, log := log }
  | store, log, j :: rest =>
    if executor j then
      execSelected executor now (deleteJob store j.id)
        (log ++ [(j.id, .completed, now)]) rest
    else
      execSelected executor now (markJobFailed store j.id now)
        (log ++ [(j.id, .failed, now)]) rest

/-- Modelled from the spec: one scheduler tick at time `now` — select the
due pending jobs, then run the per-job loop over the selection. -/
def tick (executor : Job → Bool) (jobs : List Job) (now : Nat) : TickResult :=
  execSelected executor now jobs [] (dueJobs jobs now)

/-! ## Helper lemmas -/

lemma foldl_groupedPush (users : List ManagedUser) (g : GroupedUsers) :
    users.foldl groupedPush g =
      { allowed := g.allowed ++ users.filter (fun u => u.status == Status.allowed),
        pending := g.pending ++ users.filter (fun u => u.status == Status.pending),
        rejected := g.rejected ++ users.filter (fun u => u.status == Status.rejected) } := by
  induction users generalizing g with
  | nil => simp
  | cons u tl ih =>
    rw [List.foldl_cons, ih]
    cases hst : u.status <;> simp [groupedPush, hst, List.filter_cons]

lemma status_filter_length (users : List ManagedUser) :
    (users.filter (fun u => u.status == Status.allowed)).length +
      (users.filter (fun u => u.status == Status.pending)).length +
      (users.filter (fun u => u.status == Status.rejected)).length = users.length := by
  induction users with
  | nil => rfl
  | cons u tl ih =>
    cases hst : u.status <;> simp [List.filter_cons, hst] <;> omega

/-! ## Claim theorems -/

/-- Claim C9: for every state of the user table,
`getAllUsersGroupedByStatus` returns a record with exactly the three keys
`allowed`, `pending`, `rejected` (the fields of `GroupedUsers`), each list
is exactly the stored users with the matching status, and no user is
dropped or duplicated (the three lengths sum to the table size). -/
theorem getAllUsersGroupedByStatus_partitions (users : List ManagedUser) :
    getAllUsersGroupedByStatus users =
      { allowed := users.filter (fun u => u.status == Status.allowed),
        pending := users.filter (fun u => u.status == Status.pending),
        rejected := users.filter (fun u => u.status == Status.rejected) } ∧
    (getAllUsersGroupedByStatus users).allowed.length +
      (getAllUsersGroupedByStatus users).pending.length +
      (getAllUsersGroupedByStatus users).rejected.length = users.length ∧
    (∀ u, u ∈ (getAllUsersGroupedByStatus users).allowed ↔
      u ∈ users ∧ u.status = Status.allowed) ∧
    (∀ u, u ∈ (getAllUsersGroupedByStatus users).pending ↔
      u ∈ users ∧ u.status = Status.pending) ∧
    (∀ u, u ∈ (getAllUsersGroupedByStatus users).rejected ↔
      u ∈ users ∧ u.status = Status.rejected) := by
  have h := foldl_groupedPush users { allowed := [], pending := [], rejected := [] }
  simp only [List.nil_append] at h
  refine ⟨h, ?_, ?_, ?_, ?_⟩ <;>
    simp [getAllUsersGroupedByStatus, h, status_filter_length users, List.mem_filter,
      and_comm]

/-- Claim C10: the per-user admin action keyboard never offers the
transition to the current status (no Approve button when already allowed,
no Reject button when already rejected) and always includes Remove. -/
theorem buildUserActionKeyboard_correct (userId : Nat) (status : String) :
    (status = "allowed" →
      ∀ b ∈ buildUserActionKeyboard userId status, b.text ≠ "✅ تأیید") ∧
    (status = "rejected" →
      ∀ b ∈ buildUserActionKeyboard userId status, b.text ≠ "❌ رد") ∧
    ({ text := "🗑️ حذف", callback := "admin_remove_user:" ++ toString userId } : Button) ∈
      buildUserActionKeyboard userId status := by
  refine ⟨?_, ?_, ?_⟩
  · intro h b hb
    subst h
    simp [buildUserActionKeyboard] at hb
    rcases hb with h1 | h1 <;> subst h1 <;> simp
  · intro h b hb
    subst h
    simp [buildUserActionKeyboard] at hb
    rcases hb with h1 | h1 <;> subst h1 <;> simp
  · unfold buildUserActionKeyboard
    exact List.mem_append_right _ (List.mem_singleton.mpr rfl)

/-- Witness for C10 at `userId = 7`: an already-allowed user gets no
Approve button and keeps the Remove button. -/
theorem buildUserActionKeyboard_correct_witness :
    (∀ b ∈ buildUserActionKeyboard 7 "allowed", b.text ≠ "✅ تأیید") ∧
    ({ text := "🗑️ حذف", callback := "admin_remove_user:" ++ toString 7 } : Button) ∈
      buildUserActionKeyboard 7 "allowed" :=
  ⟨(buildUserActionKeyboard_correct 7 "allowed").1 rfl,
   (buildUserActionKeyboard_correct 7 "allowed").2.2⟩

/-- Claim C5: an approval-resolution request (approve, reject or remove)
from a requester other than the designated operator is answered with an
Unauthorized alert and mutates nothing — in both the discovery callback
handler and the admin callback handler. -/
theorem resolver_unauthorized_no_mutation (requesterId adminId : String)
    (dact : DiscoveryAction) (aact : AdminAction) (s : UserStore) (now : Nat)
    (h : requesterId ≠ adminId) :
    discoveryCallback requesterId adminId dact s now =
      { store := s, answer := some ("⛔ Unauthorized", true), edit := none, reply := none } ∧
    adminCallback requesterId adminId aact s now =
      { store := s, answer := some ("⛔ Unauthorized", true), edit := none, reply := none } := by
  constructor <;> simp [discoveryCallback, adminCallback, h]

/-- Witness for C5: requester `"1"` is not operator `"2"`; both handlers
return the Unauthorized outcome on a singleton store. -/
theorem resolver_unauthorized_no_mutation_witness :
    ("1" : String) ≠ "2" ∧
    discoveryCallback "1" "2" (.approveUser "42") [] 0 =
      { store := [], answer := some ("⛔ Unauthorized", true), edit := none, reply := none } ∧
    adminCallback "1" "2" (.removeUser 3) [] 0 =
      { store := [], answer := some ("⛔ Unauthorized", true), edit := none, reply := none } :=
  ⟨by decide,
   (resolver_unauthorized_no_mutation "1" "2" (.approveUser "42") (.removeUser 3) [] 0
     (by decide)).1,
   (resolver_unauthorized_no_mutation "1" "2" (.approveUser "42") (.removeUser 3) [] 0
     (by decide)).2⟩

/-- Claim C1 counterexample: a group event whose sender is stored with
status `pending` IS forwarded to downstream handlers by the current
`accessControl` (which promotes the sender to `allowed` on the way),
refuting fail-closed gating. -/
theorem accessControl_forwards_pending_cex :
    (({ id := 1, telegramId := "42", name := "Bob", username := none,
        status := .pending, patToken := none, createdAt := 0,
        updatedAt := 0 } : ManagedUser).status = Status.pending) ∧
    findUserByTelegramId
        [{ id := 1, telegramId := "42", name := "Bob", username := none,
           status := .pending, patToken := none, createdAt := 0, updatedAt := 0 }] "42" =
      some { id := 1, telegramId := "42", name := "Bob", username := none,
             status := .pending, patToken := none, createdAt := 0, updatedAt := 0 } ∧
    (accessControl true
        [{ id := 1, telegramId := "42", name := "Bob", username := none,
           status := .pending, patToken := none, createdAt := 0, updatedAt := 0 }]
        { chatType := .group, chatId := some "100", fromId := some "42",
          firstName := some "Bob", username := none, chatTitle := some "G" }
        5).forwarded = true := by
  decide

/-- Claim C1 (amended): for every inbound group-like event whose sender has
a stored identity with status other than `allowed` (pending or rejected),
the current access gate updates that status to `allowed`, forwards the
event to downstream handlers, and sends no reply to the sender. -/
theorem accessControl_promotes_and_forwards (s : UserStore) (ctx : InboundCtx)
    (now : Nat) (uid : String) (u : ManagedUser)
    (hg : ctx.chatType = .group ∨ ctx.chatType = .supergroup)
    (hc : ctx.chatId.isSome)
    (hf : ctx.fromId = some uid)
    (hu : findUserByTelegramId s uid = some u)
    (hst : u.status ≠ .allowed) :
    (accessControl true s ctx now).forwarded = true ∧
    (accessControl true s ctx now).replies = [] ∧
    (accessControl true s ctx now).store = updateUserByTelegramId s uid .allowed now ∧
    ∀ v ∈ (accessControl true s ctx now).store,
      v.telegramId = uid → v.status = .allowed := by
  have hnp : ¬ ctx.chatType = .privateChat := by
    rcases hg with h | h <;> simp [h]
  have hout : accessControl true s ctx now =
      { store := updateUserByTelegramId s uid .allowed now, forwarded := true,
        replies := [], errorLogged := false } := by
    simp [accessControl, hnp, hc, hg, hf, hu, hst]
  refine ⟨by simp [hout], by simp [hout], by simp [hout], ?_⟩
  intro v hv hvid
  rw [hout] at hv
  simp only [updateUserByTelegramId, List.mem_map] at hv
  obtain ⟨w, _, hw⟩ := hv
  by_cases hwid : w.telegramId == uid
  · simp [hwid] at hw
    simp [← hw]
  · simp [hwid] at hw
    subst hw
    exact absurd (by simp [hvid]) hwid

/-- Witness for the amended C1: the concrete pending sender of the
counterexample is promoted and forwarded. -/
theorem accessControl_promotes_and_forwards_witness :
    (accessControl true
        [{ id := 1, telegramId := "42", name := "Bob", username := none,
           status := .pending, patToken := none, createdAt := 0, updatedAt := 0 }]
        { chatType := .group, chatId := some "100", fromId := some "42",
          firstName := some "Bob", username := none, chatTitle := some "G" }
        5).forwarded = true ∧
    (accessControl true
        [{ id := 1, telegramId := "42", name := "Bob", username := none,
           status := .pending, patToken := none, createdAt := 0, updatedAt := 0 }]
        { chatType := .group, chatId := some "100", fromId := some "42",
          firstName := some "Bob", username := none, chatTitle := some "G" }
        5).replies = [] :=
  ⟨(accessControl_promotes_and_forwards _ _ 5 "42"
      { id := 1, telegramId := "42", name := "Bob", username := none,
        status := .pending, patToken := none, createdAt := 0, updatedAt := 0 }
      (Or.inl rfl) (by decide) rfl (by decide) (by decide)).1,
   (accessControl_promotes_and_forwards _ _ 5 "42"
      { id := 1, telegramId := "42", name := "Bob", username := none,
        status := .pending, patToken := none, createdAt := 0, updatedAt := 0 }
      (Or.inl rfl) (by decide) rfl (by decide) (by decide)).2.1⟩

/-- Claim C3 counterexample: on the first sighting of an unknown sender the
current gate creates the identity row with status `allowed`, not
`pending`. -/
theorem accessControl_creates_allowed_cex :
    (accessControl true []
        { chatType := .group, chatId := some "100", fromId := some "7",
          firstName := some "Ann", username := none, chatTitle := none }
        3).store =
      [{ id := 1, telegramId := "7", name := "Ann", username := none,
         status := .allowed, patToken := none, createdAt := 3, updatedAt := 3 }] ∧
    Status.allowed ≠ Status.pending := by
  decide

/-- Claim C3 (amended): the inbound-event path itself decides statuses —
an unknown sender of a group-like event is created with status `allowed`
(not `pending`), and a stored sender whose status is not `allowed` is
updated to `allowed` by the same path. -/
theorem accessControl_status_mutations (s : UserStore) (ctx : InboundCtx)
    (now : Nat) (uid : String)
    (hg : ctx.chatType = .group ∨ ctx.chatType = .supergroup)
    (hc : ctx.chatId.isSome)
    (hf : ctx.fromId = some uid) :
    (findUserByTelegramId s uid = none →
      (accessControl true s ctx now).store =
        s ++ [{ id := nextUserId s, telegramId := uid,
                name := ctx.firstName.getD "Unknown", username := ctx.username,
                status := .allowed, patToken := none,
                createdAt := now, updatedAt := now }]) ∧
    (∀ u, findUserByTelegramId s uid = some u → u.status ≠ .allowed →
      (accessControl true s ctx now).store = updateUserByTelegramId s uid .allowed now) := by
  have hnp : ¬ ctx.chatType = .privateChat := by
    rcases hg with h | h <;> simp [h]
  constructor
  · intro hnone
    have hany : s.any (fun u => u.telegramId == uid) = false := by
      rw [List.any_eq_false]
      intro x hx
      have := List.find?_eq_none.mp hnone x hx
      simpa using this
    simp [accessControl, hnp, hc, hg, hf, hnone, createUser, hany]
  · intro u hu hst
    simp [accessControl, hnp, hc, hg, hf, hu, hst]

/-- Witness for the amended C3: both branches at concrete inputs — the
unknown sender `"7"` is created allowed, and the stored pending sender
`"42"` is promoted. -/
theorem accessControl_status_mutations_witness :
    (accessControl true []
        { chatType := .group, chatId := some "100", fromId := some "7",
          firstName := some "Ann", username := none, chatTitle := none }
        3).store =
      [] ++ [{ id := nextUserId [], telegramId := "7",
               name := (some "Ann").getD "Unknown", username := none,
               status := .allowed, patToken := none, createdAt := 3, updatedAt := 3 }] ∧
    (accessControl true
        [{ id := 1, telegramId := "42", name := "Bob", username := none,
           status := .pending, patToken := none, createdAt := 0, updatedAt := 0 }]
        { chatType := .supergroup, chatId := some "100", fromId := some "42",
          firstName := some "Bob", username := none, chatTitle := none }
        5).store =
      updateUserByTelegramId
        [{ id := 1, telegramId := "42", name := "Bob", username := none,
           status := .pending, patToken := none, createdAt := 0, updatedAt := 0 }]
        "42" .allowed 5 :=
  ⟨(accessControl_status_mutations [] _ 3 "7" (Or.inl rfl) (by decide) rfl).1 (by decide),
   (accessControl_status_mutations _ _ 5 "42" (Or.inr rfl) (by decide) rfl).2
     { id := 1, telegramId := "42", name := "Bob", username := none,
       status := .pending, patToken := none, createdAt := 0, updatedAt := 0 }
     (by decide) (by decide)⟩

/-- Claim C4 counterexample: when the identity store is unavailable during
a group event, the current gate logs the error and still forwards the
event, refuting the claimed fail-closed drop. -/
theorem accessControl_failopen_cex :
    (accessControl false []
        { chatType := .group, chatId := some "100", fromId := some "42",
          firstName := some "Bob", username := none, chatTitle := none }
        0).forwarded = true ∧
    (accessControl false []
        { chatType := .group, chatId := some "100", fromId := some "42",
          firstName := some "Bob", username := none, chatTitle := none }
        0).errorLogged = true := by
  decide

/-- Claim C4 (amended): for every inbound group-like event, if the sender
lookup fails because the store is unavailable, the gate logs the error and
still forwards the event to downstream handlers, leaving the store as it
was and sending no reply (fail-open, not fail-closed). -/
theorem accessControl_failopen (s : UserStore) (ctx : InboundCtx) (now : Nat)
    (uid : String)
    (hg : ctx.chatType = .group ∨ ctx.chatType = .supergroup)
    (hc : ctx.chatId.isSome)
    (hf : ctx.fromId = some uid) :
    (accessControl false s ctx now).forwarded = true ∧
    (accessControl false s ctx now).errorLogged = true ∧
    (accessControl false s ctx now).store = s ∧
    (accessControl false s ctx now).replies = [] := by
  have hnp : ¬ ctx.chatType = .privateChat := by
    rcases hg with h | h <;> simp [h]
  simp [accessControl, hnp, hc, hg, hf]

/-- Witness for the amended C4: the unavailable store at a concrete group
event — logged and forwarded, store untouched. -/
theorem accessControl_failopen_witness :
    (accessControl false []
        { chatType := .group, chatId := some "100", fromId := some "42",
          firstName := some "Bob", username := none, chatTitle := none }
        0).forwarded = true ∧
    (accessControl false []
        { chatType := .group, chatId := some "100", fromId := some "42",
          firstName := some "Bob", username := none, chatTitle := none }
        0).errorLogged = true ∧
    (accessControl false []
        { chatType := .group, chatId := some "100", fromId := some "42",
          firstName := some "Bob", username := none, chatTitle := none }
        0).store = [] ∧
    (accessControl false []
        { chatType := .group, chatId := some "100", fromId := some "42",
          firstName := some "Bob", username := none, chatTitle := none }
        0).replies = [] :=
  accessControl_failopen [] _ 0 "42" (Or.inl rfl) (by decide) rfl

lemma triggerUserDiscovery_conflict (st : DiscoveryState) (uid : String)
    (fn un adm : Option String) (now : Nat)
    (h : st.store.any (fun u => u.telegramId == uid) = true) :
    triggerUserDiscovery st uid fn un adm now = st := by
  simp [triggerUserDiscovery, createUser, h]

lemma discoverySeq_conflict (uid : String) (fn un adm : Option String)
    (nows : List Nat) (st : DiscoveryState)
    (h : st.store.any (fun u => u.telegramId == uid) = true) :
    discoverySeq uid fn un adm nows st = st := by
  induction nows with
  | nil => rfl
  | cons t rest ih =>
    rw [discoverySeq, triggerUserDiscovery_conflict st uid fn un adm t h, ih]

lemma userDiscoverySeq_single (s : UserStore) (notifs : List String)
    (uid : String) (fn un : Option String) (a : String) (t : Nat)
    (rest : List Nat)
    (habs : ∀ u ∈ s, u.telegramId ≠ uid) :
    discoverySeq uid fn un (some a) (t :: rest)
        { store := s, notifications := notifs } =
      { store := s ++ [{ id := nextUserId s, telegramId := uid,
                         name := fn.getD "Unknown", username := un,
                         status := .pending, patToken := none,
                         createdAt := t, updatedAt := t }],
        notifications := notifs ++ [userDiscoveryMessage (fn.getD "Unknown") un uid] } ∧
    ((discoverySeq uid fn un (some a) (t :: rest)
        { store := s, notifications := notifs }).store.filter
        (fun u => u.telegramId == uid)).length = 1 ∧
    (discoverySeq uid fn un (some a) (t :: rest)
        { store := s, notifications := notifs }).notifications.length =
      notifs.length + 1 := by
  have hany : s.any (fun u => u.telegramId == uid) = false := by
    rw [List.any_eq_false]
    intro x hx
    simpa using habs x hx
  have hstep : triggerUserDiscovery { store := s, notifications := notifs }
      uid fn un (some a) t =
      { store := s ++ [{ id := nextUserId s, telegramId := uid,
                         name := fn.getD "Unknown", username := un,
                         status := .pending, patToken := none,
                         createdAt := t, updatedAt := t }],
        notifications := notifs ++ [userDiscoveryMessage (fn.getD "Unknown") un uid] } := by
    simp [triggerUserDiscovery, createUser, hany]
  have hrest : discoverySeq uid fn un (some a) (t :: rest)
      { store := s, notifications := notifs } =
      { store := s ++ [{ id := nextUserId s, telegramId := uid,
                         name := fn.getD "Unknown", username := un,
                         status := .pending, patToken := none,
                         createdAt := t, updatedAt := t }],
        notifications := notifs ++ [userDiscoveryMessage (fn.getD "Unknown") un uid] } := by
    rw [discoverySeq, hstep]
    apply discoverySeq_conflict
    simp
  refine ⟨hrest, ?_, ?_⟩
  · rw [hrest]
    have hnil : s.filter (fun u => u.telegramId == uid) = [] := by
      rw [List.filter_eq_nil_iff]
      intro x hx
      simpa using habs x hx
    simp [List.filter_append, hnil]
  · rw [hrest]
    simp

lemma triggerGroupDiscovery_conflict (st : GroupDiscoveryState)
    (chatId : String) (chatTitle userId fn un adm : Option String) (now : Nat)
    (h : st.groups.any (fun g => g.telegramId == chatId) = true) :
    triggerGroupDiscovery st chatId chatTitle userId fn un adm now = st := by
  simp [triggerGroupDiscovery, createGroup, h]

lemma groupDiscoverySeq_conflict (chatId : String)
    (chatTitle userId fn un adm : Option String) (nows : List Nat)
    (st : GroupDiscoveryState)
    (h : st.groups.any (fun g => g.telegramId == chatId) = true) :
    groupDiscoverySeq chatId chatTitle userId fn un adm nows st = st := by
  induction nows with
  | nil => rfl
  | cons t rest ih =>
    rw [groupDiscoverySeq,
      triggerGroupDiscovery_conflict st chatId chatTitle userId fn un adm t h, ih]

lemma triggerGroupDiscovery_groups (st : GroupDiscoveryState)
    (chatId : String) (chatTitle userId fn un adm : Option String) (now : Nat)
    (h : st.groups.any (fun g => g.telegramId == chatId) = false) :
    (triggerGroupDiscovery st chatId chatTitle userId fn un adm now).groups =
      st.groups ++ [{ id := nextGroupId st.groups, telegramId := chatId,
                      title := chatTitle.getD "Unknown Group", status := .pending,
                      createdAt := now, updatedAt := now }] := by
  cases userId with
  | none =>
    cases adm <;> simp [triggerGroupDiscovery, createGroup, h]
  | some uid =>
    by_cases hm : st.users.any (fun u => u.telegramId == uid) <;> cases adm <;>
      simp [triggerGroupDiscovery, createGroup, createUser, h, hm]

lemma groupDiscoverySeq_eq_first (chatId : String)
    (chatTitle userId fn un adm : Option String) (t : Nat) (rest : List Nat)
    (st : GroupDiscoveryState)
    (h : st.groups.any (fun g => g.telegramId == chatId) = false) :
    groupDiscoverySeq chatId chatTitle userId fn un adm (t :: rest) st =
      triggerGroupDiscovery st chatId chatTitle userId fn un adm t := by
  rw [groupDiscoverySeq]
  apply groupDiscoverySeq_conflict
  rw [triggerGroupDiscovery_groups st chatId chatTitle userId fn un adm t h]
  simp

/-- Claim C2 counterexample: two near-simultaneous first-contact events
(N = 2) from the unknown group `"100"`, whose sender `"42"` already has a
stored user row.  The group-discovery flow creates exactly one pending
group row, but the nested `createUser` hits the uniqueness constraint and
the catch swallows it before `sendMessage` runs, so ZERO operator
notifications are sent — not exactly one. -/
theorem groupDiscovery_zero_notifications_cex :
    groupDiscoverySeq "100" (some "G") (some "42") (some "Bob") none (some "A")
        [3, 4]
        { groups := [],
          users := [{ id := 1, telegramId := "42", name := "Bob", username := none,
                      status := .pending, patToken := none, createdAt := 0,
                      updatedAt := 0 }],
          notifications := [] } =
      { groups := [{ id := 1, telegramId := "100", title := "G",
                     status := .pending, createdAt := 3, updatedAt := 3 }],
        users := [{ id := 1, telegramId := "42", name := "Bob", username := none,
                    status := .pending, patToken := none, createdAt := 0,
                    updatedAt := 0 }],
        notifications := [] } ∧
    ([] : List String).length ≠ 1 := by
  decide

/-- Claim C2 (amended): for every sequence of N ≥ 2 near-simultaneous
first-contact events from the same unknown external id (each of which
missed the lookup, the creates linearized by the store), the discovery
flow creates exactly one identity row for that external id and sends AT
MOST one operator notification — a concurrent duplicate create that hits
the uniqueness constraint is caught and sends nothing.  In the
group-discovery flow the whole race equals the first call; it sends
exactly one notification when the event has no sender or the sender is
also unknown, and zero when the sender already has a stored user row (the
nested create's caught unique violation suppresses the send).  In the
user-discovery flow exactly one notification is sent. -/
theorem discovery_one_row_at_most_one_notification (gs : List ManagedGroup)
    (us : UserStore) (notifs : List String) (chatId : String)
    (chatTitle userId fn un : Option String) (a : String) (t : Nat)
    (rest : List Nat)
    (habs : ∀ g ∈ gs, g.telegramId ≠ chatId) :
    groupDiscoverySeq chatId chatTitle userId fn un (some a) (t :: rest)
        { groups := gs, users := us, notifications := notifs } =
      triggerGroupDiscovery { groups := gs, users := us, notifications := notifs }
        chatId chatTitle userId fn un (some a) t ∧
    ((groupDiscoverySeq chatId chatTitle userId fn un (some a) (t :: rest)
        { groups := gs, users := us, notifications := notifs }).groups.filter
        (fun g => g.telegramId == chatId)).length = 1 ∧
    (groupDiscoverySeq chatId chatTitle userId fn un (some a) (t :: rest)
        { groups := gs, users := us, notifications := notifs }).notifications.length ≤
      notifs.length + 1 ∧
    (∀ uid, userId = some uid → (∃ u ∈ us, u.telegramId = uid) →
      (groupDiscoverySeq chatId chatTitle userId fn un (some a) (t :: rest)
        { groups := gs, users := us, notifications := notifs }).notifications =
        notifs) ∧
    ((userId = none ∨ ∃ uid, userId = some uid ∧ ∀ u ∈ us, u.telegramId ≠ uid) →
      (groupDiscoverySeq chatId chatTitle userId fn un (some a) (t :: rest)
        { groups := gs, users := us, notifications := notifs }).notifications.length =
        notifs.length + 1) ∧
    (∀ uid, (∀ u ∈ us, u.telegramId ≠ uid) →
      (discoverySeq uid fn un (some a) (t :: rest)
          { store := us, notifications := notifs }).notifications.length =
        notifs.length + 1 ∧
      ((discoverySeq uid fn un (some a) (t :: rest)
          { store := us, notifications := notifs }).store.filter
          (fun u => u.telegramId == uid)).length = 1) := by
  have hany : gs.any (fun g => g.telegramId == chatId) = false := by
    rw [List.any_eq_false]
    intro g hg
    simpa using habs g hg
  have hfirst := groupDiscoverySeq_eq_first chatId chatTitle userId fn un (some a)
    t rest { groups := gs, users := us, notifications := notifs } hany
  refine ⟨hfirst, ?_, ?_, ?_, ?_, ?_⟩
  · rw [hfirst,
      triggerGroupDiscovery_groups _ chatId chatTitle userId fn un (some a) t hany]
    have hnil : gs.filter (fun g => g.telegramId == chatId) = [] := by
      rw [List.filter_eq_nil_iff]
      intro g hg
      simpa using habs g hg
    simp [List.filter_append, hnil]
  · rw [hfirst]
    cases userId with
    | none => simp [triggerGroupDiscovery, createGroup, hany]
    | some uid =>
      by_cases hm : us.any (fun u => u.telegramId == uid) <;>
        simp [triggerGroupDiscovery, createGroup, createUser, hany, hm]
  · intro uid huid hex
    subst huid
    have hm : us.any (fun u => u.telegramId == uid) = true := by
      rw [List.any_eq_true]
      obtain ⟨u, hu, he⟩ := hex
      exact ⟨u, hu, by simp [he]⟩
    rw [hfirst]
    simp [triggerGroupDiscovery, createGroup, createUser, hany, hm]
  · intro hcase
    rw [hfirst]
    rcases hcase with hnone | ⟨uid, huid, habs2⟩
    · subst hnone
      simp [triggerGroupDiscovery, createGroup, hany]
    · subst huid
      have hm : us.any (fun u => u.telegramId == uid) = false := by
        rw [List.any_eq_false]
        intro u hu
        simpa using habs2 u hu
      simp [triggerGroupDiscovery, createGroup, createUser, hany, hm]
  · intro uid habsu
    have h := userDiscoverySeq_single us notifs uid fn un a t rest habsu
    exact ⟨h.2.2, h.2.1⟩

/-- Witness for the amended C2 at the counterexample input: one group row
for `"100"` is created while zero notifications are sent, because sender
`"42"` already has a stored user row. -/
theorem discovery_one_row_at_most_one_notification_witness :
    ((groupDiscoverySeq "100" (some "G") (some "42") (some "Bob") none (some "A")
        (3 :: [4])
        { groups := [],
          users := [{ id := 1, telegramId := "42", name := "Bob", username := none,
                      status := .pending, patToken := none, createdAt := 0,
                      updatedAt := 0 }],
          notifications := [] }).groups.filter
        (fun g => g.telegramId == "100")).length = 1 ∧
    (groupDiscoverySeq "100" (some "G") (some "42") (some "Bob") none (some "A")
        (3 :: [4])
        { groups := [],
          users := [{ id := 1, telegramId := "42", name := "Bob", username := none,
                      status := .pending, patToken := none, createdAt := 0,
                      updatedAt := 0 }],
          notifications := [] }).notifications = [] :=
  ⟨(discovery_one_row_at_most_one_notification [] _ [] "100" (some "G")
      (some "42") (some "Bob") none "A" 3 [4] (by simp)).2.1,
   (discovery_one_row_at_most_one_notification [] _ [] "100" (some "G")
      (some "42") (some "Bob") none "A" 3 [4] (by simp)).2.2.2.1 "42" rfl
     ⟨{ id := 1, telegramId := "42", name := "Bob", username := none,
        status := .pending, patToken := none, createdAt := 0, updatedAt := 0 },
      by simp, rfl⟩⟩

lemma find_after_updateUserStatus (s : UserStore) (tid : String)
    (u : ManagedUser) (st : Status) (now : Nat)
    (hu : findUserByTelegramId s tid = some u) :
    findUserByTelegramId (updateUserStatus s u.id st now) tid =
      some { u with status := st, updatedAt := now } := by
  induction s with
  | nil => simp [findUserByTelegramId] at hu
  | cons hd tl ih =>
    simp only [findUserByTelegramId, updateUserStatus] at hu ih ⊢
    simp only [List.map_cons]
    by_cases h : (fun v : ManagedUser => v.telegramId == tid) hd
    · rw [@List.find?_cons_of_pos _ (fun v : ManagedUser => v.telegramId == tid) hd tl h]
        at hu
      have hu' : hd = u := by injection hu
      subst hu'
      have hpos : (fun v : ManagedUser => v.telegramId == tid)
          (applyStatusUpdate hd.id st now hd) = true := by
        simp [applyStatusUpdate, h]
      rw [@List.find?_cons_of_pos _ (fun v : ManagedUser => v.telegramId == tid)
        (applyStatusUpdate hd.id st now hd) (List.map (applyStatusUpdate hd.id st now) tl)
        hpos]
      simp [applyStatusUpdate]
    · rw [@List.find?_cons_of_neg _ (fun v : ManagedUser => v.telegramId == tid) hd tl h]
        at hu
      have hneg : ¬ (fun v : ManagedUser => v.telegramId == tid)
          (applyStatusUpdate u.id st now hd) = true := by
        simp only [applyStatusUpdate]
        by_cases h2 : hd.id == u.id <;> simp [h2] <;> simpa using h
      rw [@List.find?_cons_of_neg _ (fun v : ManagedUser => v.telegramId == tid)
        (applyStatusUpdate u.id st now hd) (List.map (applyStatusUpdate u.id st now) tl)
        hneg]
      exact ih hu

/-- Erase the `updatedAt` timestamp of a row, for comparing stores up to
the timestamp refresh. -/
def clearUpdatedAt (u : ManagedUser) : ManagedUser := { u with updatedAt := 0 }

lemma applyStatusUpdate_twice_clear (id : Nat) (st : Status) (t1 t2 : Nat)
    (u : ManagedUser) :
    clearUpdatedAt (applyStatusUpdate id st t2 (applyStatusUpdate id st t1 u)) =
      clearUpdatedAt (applyStatusUpdate id st t1 u) := by
  by_cases h : u.id == id <;> simp [applyStatusUpdate, h, clearUpdatedAt]

lemma updateUserStatus_twice_clear (s : UserStore) (id : Nat) (st : Status)
    (t1 t2 : Nat) :
    (updateUserStatus (updateUserStatus s id st t1) id st t2).map clearUpdatedAt =
      (updateUserStatus s id st t1).map clearUpdatedAt := by
  simp only [updateUserStatus, List.map_map]
  exact List.map_congr_left
    (fun a _ => applyStatusUpdate_twice_clear id st t1 t2 a)

/-- Claim C6 counterexample: resolving Approve twice at different times
does NOT yield the same final identity-store state as resolving it once —
the second call refreshes `updatedAt`, because `updateUserStatus` is an
unconditional write. -/
theorem approve_twice_changes_store_cex :
    (handleApproveUser (handleApproveUser
        [{ id := 1, telegramId := "42", name := "Bob", username := none,
           status := .pending, patToken := none, createdAt := 0, updatedAt := 0 }]
        "42" 1).store "42" 2).store ≠
      (handleApproveUser
        [{ id := 1, telegramId := "42", name := "Bob", username := none,
           status := .pending, patToken := none, createdAt := 0, updatedAt := 0 }]
        "42" 1).store := by
  decide

/-- Claim C6 (amended): resolving Approve twice in a row yields the same
final identity-store state as resolving it once apart from the `updatedAt`
timestamp, which the unconditional `updateUserStatus` write refreshes on
every call; both calls report the same success answer, and the second
call's notification edit has exactly the same content as the first. -/
theorem approve_idempotent_mod_timestamp (s : UserStore) (tid : String)
    (t1 t2 : Nat) (u : ManagedUser)
    (hu : findUserByTelegramId s tid = some u) :
    (handleApproveUser s tid t1).answer = some ("✅ User approved", false) ∧
    (handleApproveUser (handleApproveUser s tid t1).store tid t2).answer =
      (handleApproveUser s tid t1).answer ∧
    (handleApproveUser (handleApproveUser s tid t1).store tid t2).edit =
      (handleApproveUser s tid t1).edit ∧
    (handleApproveUser (handleApproveUser s tid t1).store tid t2).store.map
        clearUpdatedAt =
      (handleApproveUser s tid t1).store.map clearUpdatedAt := by
  have h1 : handleApproveUser s tid t1 =
      { store := updateUserStatus s u.id .allowed t1,
        answer := some ("✅ User approved", false),
        edit := some (userApprovedMessage u.name u.username tid),
        reply := none } := by
    simp [handleApproveUser, hu]
  have hfind2 := find_after_updateUserStatus s tid u .allowed t1 hu
  have h2 : handleApproveUser (updateUserStatus s u.id .allowed t1) tid t2 =
      { store := updateUserStatus (updateUserStatus s u.id .allowed t1) u.id .allowed t2,
        answer := some ("✅ User approved", false),
        edit := some (userApprovedMessage u.name u.username tid),
        reply := none } := by
    simp [handleApproveUser, hfind2]
  rw [h1]
  simp only [h2]
  exact ⟨trivial, trivial, trivial, updateUserStatus_twice_clear s u.id .allowed t1 t2⟩

/-- Witness for the amended C6 at the counterexample input: same answer,
same edit content, same store up to `updatedAt`. -/
theorem approve_idempotent_mod_timestamp_witness :
    (handleApproveUser
        [{ id := 1, telegramId := "42", name := "Bob", username := none,
           status := .pending, patToken := none, createdAt := 0, updatedAt := 0 }]
        "42" 1).answer = some ("✅ User approved", false) ∧
    (handleApproveUser (handleApproveUser
        [{ id := 1, telegramId := "42", name := "Bob", username := none,
           status := .pending, patToken := none, createdAt := 0, updatedAt := 0 }]
        "42" 1).store "42" 2).edit =
      (handleApproveUser
        [{ id := 1, telegramId := "42", name := "Bob", username := none,
           status := .pending, patToken := none, createdAt := 0, updatedAt := 0 }]
        "42" 1).edit :=
  ⟨(approve_idempotent_mod_timestamp _ "42" 1 2
      { id := 1, telegramId := "42", name := "Bob", username := none,
        status := .pending, patToken := none, createdAt := 0, updatedAt := 0 }
      (by decide)).1,
   (approve_idempotent_mod_timestamp _ "42" 1 2
      { id := 1, telegramId := "42", name := "Bob", username := none,
        status := .pending, patToken := none, createdAt := 0, updatedAt := 0 }
      (by decide)).2.2.1⟩

/-- Claim C7 counterexample: removing an identity that has no stored row is
a no-op, but it is reported with the not-found error reply, not as a
success: nothing is edited into the original message. -/
theorem removeUser_absent_reports_notfound_cex :
    (handleRemoveUser [] 1).reply = some "❌ کاربر یافت نشد." ∧
    (handleRemoveUser [] 1).edit = none ∧
    (handleRemoveUser [] 1).store = [] := by
  decide

/-- Claim C7 (amended): resolving Remove for an id with no stored row
performs no mutation and reports NotFound (not success); resolving Remove
for an existing identity deletes exactly that row and reports the removal
in the edited message. -/
theorem removeUser_correct (s : UserStore) (i : Nat) :
    (findUserById s i = none →
      handleRemoveUser s i =
        { store := s, answer := none, edit := none,
          reply := some "❌ کاربر یافت نشد." }) ∧
    (∀ u, findUserById s i = some u → (s.map (fun v => v.id)).Nodup →
      (handleRemoveUser s i).store = s.filter (fun v => ¬ (v.id == i)) ∧
      (handleRemoveUser s i).reply = none ∧
      (handleRemoveUser s i).edit =
        some (userRemovedMessage u.name u.username u.telegramId) ∧
      u ∈ s ∧ u ∉ (handleRemoveUser s i).store ∧
      ∀ v ∈ s, v ≠ u → v ∈ (handleRemoveUser s i).store) := by
  constructor
  · intro hnone
    simp [handleRemoveUser, hnone]
  · intro u hu hnd
    have hu' : List.find? (fun v : ManagedUser => v.id == i) s = some u := hu
    have hmem : u ∈ s := List.mem_of_find?_eq_some hu'
    have hid : (fun v : ManagedUser => v.id == i) u = true :=
      @List.find?_some _ (fun v : ManagedUser => v.id == i) u s hu'
    have hid' : u.id = i := by simpa using hid
    have hout : handleRemoveUser s i =
        { store := deleteUser s i, answer := none,
          edit := some (userRemovedMessage u.name u.username u.telegramId),
          reply := none } := by
      simp [handleRemoveUser, hu]
    refine ⟨by simp [hout, deleteUser], by simp [hout], by simp [hout], hmem, ?_, ?_⟩
    · rw [hout]
      simp [deleteUser, List.mem_filter, hid']
    · intro v hv hvu
      have hvid : v.id ≠ i := by
        intro hcontra
        exact hvu (List.inj_on_of_nodup_map hnd hv hmem (by rw [hcontra, hid']))
      rw [hout]
      simp [deleteUser, List.mem_filter, hv, hvid]

/-- Witness for the amended C7: both branches at concrete inputs — remove
of the absent id 1 on the empty store reports not-found, and remove of the
present id 1 deletes exactly that row. -/
theorem removeUser_correct_witness :
    handleRemoveUser [] 1 =
      { store := [], answer := none, edit := none,
        reply := some "❌ کاربر یافت نشد." } ∧
    (handleRemoveUser
        [{ id := 1, telegramId := "42", name := "Bob", username := none,
           status := .allowed, patToken := none, createdAt := 0, updatedAt := 0 }]
        1).store =
      [{ id := 1, telegramId := "42", name := "Bob", username := none,
         status := .allowed, patToken := none, createdAt := 0,
         updatedAt := 0 }].filter (fun v => ¬ (v.id == 1)) :=
  ⟨(removeUser_correct [] 1).1 (by decide),
   ((removeUser_correct
      [{ id := 1, telegramId := "42", name := "Bob", username := none,
         status := .allowed, patToken := none, createdAt := 0, updatedAt := 0 }]
      1).2
     { id := 1, telegramId := "42", name := "Bob", username := none,
       status := .allowed, patToken := none, createdAt := 0, updatedAt := 0 }
     (by decide) (by decide)).1⟩

lemma execSelected_log_mono (executor : Job → Bool) (now : Nat)
    (sel : List Job) (store : List Job) (log : List (Nat × JobStatus × Nat))
    (e : Nat × JobStatus × Nat) (he : e ∈ log) :
    e ∈ (execSelected executor now store log sel).log := by
  induction sel generalizing store log with
  | nil => simpa [execSelected] using he
  | cons m rest ih =>
    rw [execSelected]
    by_cases hm : executor m <;> simp [hm] <;>
      exact ih _ _ (List.mem_append_left _ he)

lemma execSelected_no_id (executor : Job → Bool) (now : Nat)
    (sel : List Job) (store : List Job) (log : List (Nat × JobStatus × Nat))
    (i : Nat) (h : ∀ k ∈ store, k.id ≠ i) :
    ∀ k ∈ (execSelected executor now store log sel).store, k.id ≠ i := by
  induction sel generalizing store log with
  | nil => simpa [execSelected] using h
  | cons m rest ih =>
    rw [execSelected]
    by_cases hm : executor m <;> simp only [hm, if_true, if_false] <;> apply ih
    · intro k hk
      exact h k (List.mem_of_mem_filter hk)
    · intro k hk
      simp only [markJobFailed, List.mem_map] at hk
      obtain ⟨w, hw, hwk⟩ := hk
      by_cases hwid : w.id == m.id
      · simp [hwid] at hwk
        subst hwk
        exact h w hw
      · simp [hwid] at hwk
        subst hwk
        exact h w hw

lemma execSelected_row_preserved (executor : Job → Bool) (now : Nat)
    (sel : List Job) (store : List Job) (log : List (Nat × JobStatus × Nat))
    (k : Job) (hk : k ∈ store) (hsel : ∀ m ∈ sel, m.id ≠ k.id) :
    k ∈ (execSelected executor now store log sel).store := by
  induction sel generalizing store log with
  | nil => simpa [execSelected] using hk
  | cons m rest ih =>
    have hmk : m.id ≠ k.id := hsel m (List.mem_cons_self m rest)
    rw [execSelected]
    by_cases hm : executor m <;> simp only [hm, if_true, if_false] <;>
      refine ih _ _ ?_ (fun m' hm' => hsel m' (List.mem_cons_of_mem m hm'))
    · simp only [deleteJob, List.mem_filter]
      refine ⟨hk, ?_⟩
      simpa using fun hcontra => hmk hcontra.symm
    · simp only [markJobFailed, List.mem_map]
      refine ⟨k, hk, ?_⟩
      have : ¬ (k.id == m.id) = true := by
        simpa using fun hcontra => hmk hcontra.symm
      simp [this]

lemma execSelected_main (executor : Job → Bool) (now : Nat)
    (sel : List Job) (store : List Job) (log : List (Nat × JobStatus × Nat))
    (j : Job) (hj : j ∈ sel) (hnd : (sel.map (fun k => k.id)).Nodup)
    (hstore : j ∈ store) :
    (executor j = true →
      (j.id, JobStatus.completed, now) ∈ (execSelected executor now store log sel).log ∧
      ∀ k ∈ (execSelected executor now store log sel).store, k.id ≠ j.id) ∧
    (executor j = false →
      (j.id, JobStatus.failed, now) ∈ (execSelected executor now store log sel).log ∧
      { j with status := JobStatus.failed, executedAt := some now } ∈
        (execSelected executor now store log sel).store) := by
  induction sel generalizing store log with
  | nil => simp at hj
  | cons m rest ih =>
    rcases List.mem_cons.mp hj with hjm | hjrest
    · subst hjm
      have hrest_ids : ∀ m' ∈ rest, m'.id ≠ j.id := by
        intro m' hm'
        have := (List.nodup_cons.mp hnd).1
        intro hcontra
        exact this (by simpa [hcontra] using List.mem_map_of_mem (fun k => k.id) hm')
      constructor
      · intro hex
        rw [execSelected]
        simp only [hex, if_true]
        constructor
        · exact execSelected_log_mono executor now rest _ _ _
            (List.mem_append_right _ (List.mem_singleton.mpr rfl))
        · apply execSelected_no_id
          intro k hk
          simp only [deleteJob, List.mem_filter] at hk
          simpa using hk.2
      · intro hex
        rw [execSelected]
        simp only [hex, if_false, Bool.false_eq_true]
        constructor
        · exact execSelected_log_mono executor now rest _ _ _
            (List.mem_append_right _ (List.mem_singleton.mpr rfl))
        · apply execSelected_row_preserved
          · simp only [markJobFailed, List.mem_map]
            exact ⟨j, hstore, by simp⟩
          · exact hrest_ids
    · have hndrest : (rest.map (fun k => k.id)).Nodup := (List.nodup_cons.mp hnd).2
      have hmj : m.id ≠ j.id := by
        have := (List.nodup_cons.mp hnd).1
        intro hcontra
        exact this (by simpa [hcontra] using List.mem_map_of_mem (fun k => k.id) hjrest)
      rw [execSelected]
      by_cases hm : executor m <;> simp only [hm, if_true, if_false] <;>
        refine ih _ _ hjrest hndrest ?_
      · simp only [deleteJob, List.mem_filter]
        refine ⟨hstore, ?_⟩
        simpa using fun hcontra => hmj hcontra.symm
      · simp only [markJobFailed, List.mem_map]
        refine ⟨j, hstore, ?_⟩
        have : ¬ (j.id == m.id) = true := by
          simpa using fun hcontra => hmj hcontra.symm
        simp [this]

/-- Claim C8 (spec-modelled, `runner.ts` is not under `src/`): for every job
selected as due by a tick — `status = pending` and `dueAt ≤ now` — if the
executor succeeds the job is marked completed with `executedAt = now` (the
write appears in the tick's log) and its row is deleted from the store; if
the executor fails it is marked failed with `executedAt = now` and its row
is retained with those fields; the tick continues past both outcomes, so
this holds for every selected job of the same tick. -/
theorem tick_finalizes_due_jobs (executor : Job → Bool) (jobs : List Job)
    (now : Nat) (j : Job)
    (hnd : (jobs.map (fun k => k.id)).Nodup)
    (hj : j ∈ dueJobs jobs now) :
    (executor j = true →
      (j.id, JobStatus.completed, now) ∈ (tick executor jobs now).log ∧
      ∀ k ∈ (tick executor jobs now).store, k.id ≠ j.id) ∧
    (executor j = false →
      (j.id, JobStatus.failed, now) ∈ (tick executor jobs now).log ∧
      { j with status := JobStatus.failed, executedAt := some now } ∈
        (tick executor jobs now).store) := by
  have hjmem : j ∈ jobs := List.mem_of_mem_filter hj
  have hselnd : ((dueJobs jobs now).map (fun k => k.id)).Nodup := by
    apply List.Nodup.sublist _ hnd
    exact (List.filter_sublist jobs).map (fun k => k.id)
  exact execSelected_main executor now (dueJobs jobs now) jobs [] j hj hselnd hjmem

/-- Witness for C8: a two-job tick at time 10 — job 1 succeeds and is
deleted after the completed write; job 2 fails and is retained as failed
with `executedAt = 10`. -/
theorem tick_finalizes_due_jobs_witness :
    ((fun j : Job => j.id == 1)
        { id := 1, description := "offday reminder", payload := none, dueAt := 5,
          executedAt := none, status := .pending, createdAt := 0 } = true →
      (1, JobStatus.completed, 10) ∈
        (tick (fun j : Job => j.id == 1)
          [{ id := 1, description := "offday reminder", payload := none, dueAt := 5,
             executedAt := none, status := .pending, createdAt := 0 },
           { id := 2, description := "custom notification", payload := some "x",
             dueAt := 7, executedAt := none, status := .pending, createdAt := 0 }]
          10).log ∧
      ∀ k ∈ (tick (fun j : Job => j.id == 1)
          [{ id := 1, description := "offday reminder", payload := none, dueAt := 5,
             executedAt := none, status := .pending, createdAt := 0 },
           { id := 2, description := "custom notification", payload := some "x",
             dueAt := 7, executedAt := none, status := .pending, createdAt := 0 }]
          10).store, k.id ≠ 1) ∧
    ((fun j : Job => j.id == 1)
        { id := 1, description := "offday reminder", payload := none, dueAt := 5,
          executedAt := none, status := .pending, createdAt := 0 } = false →
      (1, JobStatus.failed, 10) ∈
        (tick (fun j : Job => j.id == 1)
          [{ id := 1, description := "offday reminder", payload := none, dueAt := 5,
             executedAt := none, status := .pending, createdAt := 0 },
           { id := 2, description := "custom notification", payload := some "x",
             dueAt := 7, executedAt := none, status := .pending, createdAt := 0 }]
          10).log ∧
      ({ id := 1, description := "offday reminder", payload := none, dueAt := 5,
         executedAt := some 10, status := .failed, createdAt := 0 } : Job) ∈
        (tick (fun j : Job => j.id == 1)
          [{ id := 1, description := "offday reminder", payload := none, dueAt := 5,
             executedAt := none, status := .pending, createdAt := 0 },
           { id := 2, description := "custom notification", payload := some "x",
             dueAt := 7, executedAt := none, status := .pending, createdAt := 0 }]
          10).store) := by
  exact tick_finalizes_due_jobs (fun j : Job => j.id == 1) _ 10 _ (by decide) (by decide)

end TaskLogger
